import Mathlib

/-!
Verification of the VecSetEdit orchestration layer.

The repository has two front-ends sharing one orchestration contract:
* `src/.runpod/handler.py` — a serverless job handler (`Handler` namespace below);
* `src/app.py` — an interactive Gradio GUI (`App` namespace below).

Both drive a two-stage external pipeline (geometry edit, then optional
texture repaint) as child processes.  We shallowly embed the Python code:
pure computations become Lean functions; the effectful parts (temp-dir
allocation, downloads, file writes, child processes, existence checks,
file reads, archiving) are modelled by an explicit environment `Env`
supplying the outcomes of those effects, and every function additionally
returns the list of effects it performs, in order.
-/

/-- A Python/JSON value as it occurs in the request mappings read by the
handler.  The handler only ever reads scalar values out of the (already
extracted) `input` mapping, so no nested-object constructor is needed;
the single top-level `job["input"]` extraction is modelled by the
`Option JObj` argument of `Handler.handler`. -/
inductive JVal where
  | vNone
  | vBool (b : Bool)
  | vInt (n : Int)
  | vFloat (q : ℚ)
  | vStr (s : String)
deriving DecidableEq, Repr

/-- A Python dict with string keys, as an association list (first match wins;
Python dicts have unique keys, so this is faithful). -/
abbrev JObj := List (String × JVal)

/-- `d.get(key)`: `none` iff the key is absent. -/
def pyGet : JObj → String → Option JVal
  | [], _ => none
  | (k, v) :: rest, key => if k = key then some v else pyGet rest key

/-- `d.get(key, dflt)`: the default is used only when the key is absent. -/
def pyGetD (d : JObj) (key : String) (dflt : JVal) : JVal :=
  (pyGet d key).getD dflt

/-- Python truthiness of a value.  (A rational is zero iff its reduced
numerator is zero.) -/
def pyTruthy : JVal → Bool
  | .vNone => false
  | .vBool b => b
  | .vInt n => n != 0
  | .vFloat q => q.num != 0
  | .vStr s => s != ""

/-- `key in d and d[key]` — the presence-and-truthiness test used by
`_get_input_file`. -/
def truthyKey (d : JObj) (key : String) : Bool :=
  Option.any pyTruthy (pyGet d key)

/-- Render the nonnegative fraction `n / d` (in lowest terms, `d ≠ 0`) the
way Python `str` renders the corresponding float literal (`15/2 ↦ "7.5"`,
`0/1 ↦ "0.0"`): find the shortest finite decimal expansion and print it
with at least one digit on each side of the point.  Helper for
`floatStr`. -/
def floatStrParts (n d : Nat) : String :=
  let k := ((List.range 18).find? (fun k => (10 : Nat) ^ k % d == 0)).getD 17
  let s := Nat.repr (n * ((10 : Nat) ^ k / d))
  if k = 0 then s ++ ".0"
  else
    let s := String.mk (List.replicate (k + 1 - s.length) '0') ++ s
    s.take (s.length - k) ++ "." ++ s.drop (s.length - k)

/-- Python `str` of a float.  The model keeps floats as exact rationals;
on the short decimal values this program passes around, Python's
shortest-round-trip repr coincides with the exact decimal expansion
rendered here. -/
def floatStr (q : ℚ) : String :=
  if q.num < 0 then "-" ++ floatStrParts q.num.natAbs q.den
  else floatStrParts q.num.toNat q.den

/-- Python `str()` of a scalar value. -/
def pyStrOf : JVal → String
  | .vNone => "None"
  | .vBool b => if b then "True" else "False"
  | .vInt n => toString n
  | .vFloat q => floatStr q
  | .vStr s => s

/-- Truncation of a rational toward zero, as Python `int()` on a float. -/
def ratTrunc (q : ℚ) : Int :=
  if q.num < 0 then -((q.num.natAbs / q.den : Nat) : Int)
  else ((q.num.toNat / q.den : Nat) : Int)

/-- Python `int(...)` coercion on the values the handler feeds it.
(`int` of a non-numeric string would raise in Python; no claim exercises
that, and the model is only applied to numeric values.) -/
def pyInt : JVal → Int
  | .vInt n => n
  | .vFloat q => ratTrunc q
  | .vBool b => if b then 1 else 0
  | .vStr s => (s.toInt?).getD 0
  | .vNone => 0

/-- Python `float(...)` coercion on the values the handler feeds it
(same caveat as `pyInt`). -/
def pyFloat : JVal → ℚ
  | .vInt n => mkRat n 1
  | .vFloat q => q
  | .vBool b => if b then mkRat 1 1 else mkRat 0 1
  | .vStr _ => mkRat 0 1
  | .vNone => mkRat 0 1

/-- `os.path.join` for the two-component joins this code performs
(posix semantics: an absolute second component wins). -/
def pjoin (a b : String) : String :=
  if b.data.head? = some '/' then b
  else if a = "" then b
  else if a.data.getLast? = some '/' then a ++ b
  else a ++ "/" ++ b

/-- Split a character list at every occurrence of `c` (the list of pieces
is never empty).  Helper for `basename`. -/
def splitAtChar (c : Char) : List Char → List (List Char)
  | [] => [[]]
  | x :: xs =>
    let r := splitAtChar c xs
    if x = c then [] :: r else (x :: r.headD []) :: r.tail

/-- `os.path.basename`: the part after the last slash. -/
def basename (p : String) : String :=
  String.mk ((splitAtChar '/' p.data).getLastD [])

/-- Outcome of one `subprocess.run(..., capture_output=True, text=True)`. -/
structure ProcResult where
  returncode : Int
  stdout : String
  stderr : String
deriving DecidableEq, Repr

/-- The source of the bytes written for a resolved input slot. -/
inductive FileSrc where
  | fromUrl (url : String)
  | fromB64 (data : String)
deriving DecidableEq, Repr

/-- Observable side effects of the orchestration code, in program order. -/
inductive Effect where
  | mkdtempE (pfx path : String)
  | mkdirE (path : String)
  | downloadE (url dest : String)
  | writeFileE (dest : String) (src : FileSrc)
  | copyE (src dest : String)
  | runProcE (cmd : List String) (cwd : String)
  | zipE (srcDir destBase : String)
  | readFileE (path : String)
deriving DecidableEq, Repr

/-- Is this effect a child-process invocation? -/
def Effect.isRun : Effect → Bool
  | .runProcE _ _ => true
  | _ => false

/-- The destination path of a file-materialising effect (download or
base64 write), `none` for all other effects. -/
def Effect.writtenFile : Effect → Option String
  | .downloadE _ dest => some dest
  | .writeFileE dest _ => some dest
  | _ => none

/-- The command lines of all child-process invocations in a trace. -/
def runCmdsOf (tr : List Effect) : List (List String) :=
  tr.filterMap (fun e => match e with
    | .runProcE c _ => some c
    | _ => none)

/-- The environment: outcomes of every effect the code can perform.
`genRunId` is the timestamp-plus-random run id, `mkdtemp` maps a prefix
to the created temp directory, `run` gives each child process's captured
result, `pathExists` is the state of the output directory when it is
scanned, and `fileSize`/`fileB64` describe file contents when read back. -/
structure Env where
  genRunId : String
  mkdtemp : String → String
  repoDir : String
  rootDir : String
  pyExe : String
  run : List String → String → ProcResult
  pathExists : String → Bool
  fileSize : String → Nat
  fileB64 : String → String

/-- Inline-encoded artifact payload, as built by `_encode_file`. -/
structure EncodedFile where
  filename : String
  size_bytes : Nat
  base64 : String
deriving DecidableEq, Repr

namespace Handler

/-- `_encode_file` (handler.py lines 83–90): read a file and wrap it as
`{filename, size_bytes, base64}`. -/
def _encode_file (env : Env) (path : String) : EncodedFile × List Effect :=
  ({ filename := basename path,
     size_bytes := env.fileSize path,
     base64 := env.fileB64 path },
   [Effect.readFileE path])

/-- `_zip_dir` (handler.py lines 78–80): `shutil.make_archive` of the whole
directory; returns `dest_base + ".zip"`. -/
def _zip_dir (src_dir dest_base : String) : String × List Effect :=
  (dest_base ++ ".zip", [Effect.zipE src_dir dest_base])

/-- `_run_cmd` (handler.py lines 62–75): run the command, concatenate
`"$ " + joined command`, stdout if non-empty, stderr if non-empty,
newline-joined; return the exit code verbatim.  Total — a non-zero exit
is an ordinary return value, never an exception. -/
def _run_cmd (env : Env) (cmd : List String) (workdir : String) :
    (Int × String) × List Effect :=
  let result := env.run cmd workdir
  let log := ["$ " ++ String.intercalate " " cmd]
  let log := if result.stdout = "" then log else log ++ [result.stdout]
  let log := if result.stderr = "" then log else log ++ [result.stderr]
  ((result.returncode, String.intercalate "\n" log), [Effect.runProcE cmd workdir])

/-- The destination filename chosen by `_get_input_file` (handler.py
line 48): `input_data.get(name_key) or default_name` — the hint is used
only when present and truthy.  (A non-string truthy hint would make
Python's `os.path.join` raise; the model renders it with `str`, and no
claim exercises that case.) -/
def resolvedName (input_data : JObj) (keyPfx default_name : String) : String :=
  match pyGet input_data (keyPfx ++ "_filename") with
  | some v => if pyTruthy v then pyStrOf v else default_name
  | none => default_name

/-- `_get_input_file` (handler.py lines 38–59): resolve one input slot.
URL (present and truthy) takes precedence, then base64 (present and
truthy), else unresolved (`None`, nothing written). -/
def _get_input_file (input_data : JObj)
    (keyPfx dest_dir default_name : String) : Option String × List Effect :=
  let dest_path := pjoin dest_dir (resolvedName input_data keyPfx default_name)
  if truthyKey input_data (keyPfx ++ "_url") then
    (some dest_path,
     [Effect.downloadE (pyStrOf ((pyGet input_data (keyPfx ++ "_url")).getD .vNone)) dest_path])
  else if truthyKey input_data (keyPfx ++ "_base64") then
    (some dest_path,
     [Effect.writeFileE dest_path
       (FileSrc.fromB64 (pyStrOf ((pyGet input_data (keyPfx ++ "_base64")).getD .vNone)))])
  else (none, [])

/-- The fixed artifact catalog (handler.py lines 95–103). -/
def catalog : List String :=
  ["edited_mesh.glb", "edited_mesh_views.png", "selected_fixed_tokens_views.png",
   "2d_masked_input.png", "mv_repaint_model.glb", "mv_adapter_repaint_6_views.png",
   "mv_adapter_6_views.png"]

/-- `_collect_outputs` (handler.py lines 93–108): the catalog entries whose
files exist on disk, in catalog order, paired with their paths.
Presence is judged by `os.path.exists` only. -/
def _collect_outputs (env : Env) (output_dir : String) : List (String × String) :=
  catalog.filterMap (fun name =>
    let path := pjoin output_dir name
    if env.pathExists path then some (name, path) else none)

/-- `run_id` (handler.py line 120): the caller-supplied id if truthy, else
the generated timestamp-plus-uuid id. -/
def runIdOf (env : Env) (d : JObj) : JVal :=
  match pyGet d "run_id" with
  | some v => if pyTruthy v then v else JVal.vStr env.genRunId
  | none => JVal.vStr env.genRunId

/-- `work_dir = tempfile.mkdtemp(prefix=f"vecset_{run_id}_")` (line 121). -/
def workDirOf (env : Env) (d : JObj) : String :=
  env.mkdtemp ("vecset_" ++ pyStrOf (runIdOf env d) ++ "_")

/-- `input_dir` (handler.py line 122). -/
def inputDirOf (env : Env) (d : JObj) : String :=
  pjoin (workDirOf env d) "input"

/-- `output_dir` (handler.py line 123). -/
def outputDirOf (env : Env) (d : JObj) : String :=
  pjoin (workDirOf env d) "output"

/-- Workspace-allocation effects (handler.py lines 121–125). -/
def allocEffects (env : Env) (d : JObj) : List Effect :=
  [Effect.mkdtempE ("vecset_" ++ pyStrOf (runIdOf env d) ++ "_") (workDirOf env d),
   Effect.mkdirE (inputDirOf env d),
   Effect.mkdirE (outputDirOf env d)]

/-- Resolution of the `mesh` slot (handler.py line 127). -/
def meshRes (env : Env) (d : JObj) : Option String × List Effect :=
  _get_input_file d "mesh" (inputDirOf env d) "model.glb"

/-- Resolution of the `edit_image` slot (handler.py line 128). -/
def editRes (env : Env) (d : JObj) : Option String × List Effect :=
  _get_input_file d "edit_image" (inputDirOf env d) "2d_edit.png"

/-- Resolution of the `mask_image` slot (handler.py line 129). -/
def maskRes (env : Env) (d : JObj) : Option String × List Effect :=
  _get_input_file d "mask_image" (inputDirOf env d) "2d_mask.png"

/-- Resolution of the optional `render_image` slot (handler.py line 130). -/
def renderRes (env : Env) (d : JObj) : Option String × List Effect :=
  _get_input_file d "render_image" (inputDirOf env d) "2d_render.png"

/-- The aggregated list of unresolved mandatory slots (handler.py
lines 132–140), in the checked order mesh, edit_image, mask_image. -/
def missingOf (env : Env) (d : JObj) : List String :=
  (([("mesh", (meshRes env d).1), ("edit_image", (editRes env d).1),
     ("mask_image", (maskRes env d).1)]).filter (fun p => p.2.isNone)).map Prod.fst

/-- The stage-1 command line (handler.py lines 158–194): `python` plus the
repo's `vecset_edit.py` with every numeric parameter as a `--name value`
pair (defaults per lines 147–156), and `--render_image` appended iff the
optional render slot resolved. -/
def stage1Cmd (env : Env) (d : JObj) : List String :=
  let base :=
    ["python", pjoin env.repoDir "vecset_edit.py",
     "--input_dir", inputDirOf env d,
     "--output_dir", outputDirOf env d,
     "--mesh_file", basename ((meshRes env d).1.getD ""),
     "--edit_image", basename ((editRes env d).1.getD ""),
     "--mask_image", basename ((maskRes env d).1.getD ""),
     "--azimuth", floatStr (pyFloat (pyGetD d "azimuth" (.vFloat (mkRat 0 1)))),
     "--elevation", floatStr (pyFloat (pyGetD d "elevation" (.vFloat (mkRat 0 1)))),
     "--scale", floatStr (pyFloat (pyGetD d "scale" (.vFloat (mkRat 2 1)))),
     "--attentive_2d", toString (pyInt (pyGetD d "attentive_2d" (.vInt 8))),
     "--cut_off_p", floatStr (pyFloat (pyGetD d "cut_off_p" (.vFloat (mkRat 1 2)))),
     "--topk_percent_2d", floatStr (pyFloat (pyGetD d "topk_percent_2d" (.vFloat (mkRat 1 5)))),
     "--threshold_percent_2d", floatStr (pyFloat (pyGetD d "threshold_percent_2d" (.vFloat (mkRat 1 10)))),
     "--step_pruning", toString (pyInt (pyGetD d "step_pruning" (.vInt 5))),
     "--edit_strength", floatStr (pyFloat (pyGetD d "edit_strength" (.vFloat (mkRat 7 10)))),
     "--guidance_scale", floatStr (pyFloat (pyGetD d "guidance_scale" (.vFloat (mkRat 15 2))))]
  match (renderRes env d).1 with
  | some rp => base ++ ["--render_image", basename rp]
  | none => base

/-- The stage-1 invocation (handler.py line 196), with `cwd = REPO_DIR`. -/
def stage1 (env : Env) (d : JObj) : (Int × String) × List Effect :=
  _run_cmd env (stage1Cmd env d) env.repoDir

/-- The stage-2 command line (handler.py lines 206–223): the texture
repaint consumes artifacts of stage 1 from the output directory. -/
def stage2Cmd (env : Env) (d : JObj) : List String :=
  ["python", pjoin env.repoDir "preserving_texture_baking.py",
   "--input_mesh", pjoin (outputDirOf env d) "edited_mesh.glb",
   "--ref_mesh", pjoin (outputDirOf env d) "source_model.glb",
   "--texture_image", pjoin (outputDirOf env d) "2d_edit.png",
   "--output_dir", outputDirOf env d,
   "--seed", toString (pyInt (pyGetD d "seed" (.vInt 99999))),
   "--render_method", pyStrOf (pyGetD d "render_method" (.vStr "nvdiffrast"))]

/-- The stage-2 invocation (handler.py line 224), with `cwd = REPO_DIR`. -/
def stage2 (env : Env) (d : JObj) : (Int × String) × List Effect :=
  _run_cmd env (stage2Cmd env d) env.repoDir

/-- The job-handler response object, with each optional key of the result
dict modelled as an `Option` field (`none` = key absent). -/
structure HResponse where
  status : String
  run_id : Option JVal := none
  outputs : Option (List String) := none
  log : Option String := none
  files : Option (List (String × EncodedFile)) := none
  zip : Option EncodedFile := none
  message : Option String := none
deriving DecidableEq, Repr

/-- The fixed dry-run reachability payload (handler.py lines 115–118). -/
def dryRunResp : HResponse :=
  { status := "ok", message := some "dry_run: handler is reachable" }

/-- Result packaging (handler.py lines 233–249): collect outputs, build the
success dict (log = stage-1 log, with the stage-2 log appended iff it is
truthy), then add `files` / `zip` iff their gates are exactly `True`. -/
def packResult (env : Env) (d : JObj) (log : String) (texture_log : Option String)
    (effs : List Effect) : HResponse × List Effect :=
  let outputs := _collect_outputs env (outputDirOf env d)
  let result : HResponse :=
    { status := "ok",
      run_id := some (runIdOf env d),
      outputs := some (outputs.map Prod.fst),
      log := some (match texture_log with
        | some t => if t = "" then log else log ++ "\n\n" ++ t
        | none => log) }
  let step :=
    if pyGet d "return_files" = some (.vBool true) then
      ({ result with files := some (outputs.map (fun p => (p.1, (_encode_file env p.2).1))) },
       effs ++ (outputs.map (fun p => (_encode_file env p.2).2)).flatten)
    else (result, effs)
  if pyGet d "return_zip_base64" = some (.vBool true) then
    let archive := _zip_dir (outputDirOf env d) (pjoin (workDirOf env d) "results")
    ({ step.1 with zip := some (_encode_file env archive.1).1 },
     step.2 ++ archive.2 ++ (_encode_file env archive.1).2)
  else step

/-- The conditional texture stage and packaging (handler.py lines 204–249):
stage 2 runs iff `run_texture_repaint is True`; a non-zero stage-2 exit is
overall failure with both logs concatenated. -/
def afterStage1 (env : Env) (d : JObj) (log : String) (effs : List Effect) :
    HResponse × List Effect :=
  if pyGet d "run_texture_repaint" = some (.vBool true) then
    if (stage2 env d).1.1 ≠ 0 then
      ({ status := "error", message := some "texture repaint failed",
         log := some (log ++ "\n\n" ++ (stage2 env d).1.2) },
       effs ++ (stage2 env d).2)
    else packResult env d log (some (stage2 env d).1.2) (effs ++ (stage2 env d).2)
  else packResult env d log none effs

/-- The handler after the dry-run gate (handler.py lines 120–249):
allocate the workspace, resolve the four slots, aggregate missing
mandatory slots, run stage 1, fail on non-zero exit with stage 1's log
only, else continue to the optional texture stage. -/
def handlerAfterDry (env : Env) (d : JObj) : HResponse × List Effect :=
  let effIn := allocEffects env d ++ (meshRes env d).2 ++ (editRes env d).2 ++
    (maskRes env d).2 ++ (renderRes env d).2
  if missingOf env d ≠ [] then
    ({ status := "error",
       message := some ("Missing required inputs: " ++
         String.intercalate ", " (missingOf env d)) }, effIn)
  else
    if (stage1 env d).1.1 ≠ 0 then
      ({ status := "error", message := some "vecset_edit failed",
         log := some (stage1 env d).1.2 },
       effIn ++ (stage1 env d).2)
    else afterStage1 env d (stage1 env d).1.2 (effIn ++ (stage1 env d).2)

/-- `handler` on the extracted input mapping (handler.py lines 111–249):
the dry-run gate (`is True`) short-circuits before any allocation. -/
def handlerCore (env : Env) (d : JObj) : HResponse × List Effect :=
  if pyGet d "dry_run" = some (.vBool true) then (dryRunResp, [])
  else handlerAfterDry env d

/-- `handler(job)` (handler.py line 112): `input_data = job.get("input", {})`,
modelled by an optional input mapping. -/
def handler (env : Env) (job : Option JObj) : HResponse × List Effect :=
  handlerCore env (job.getD [])

end Handler

namespace App

/-- Truthiness of an optional string (a Gradio filepath or `None`):
truthy iff present and non-empty, as Python `if render_image:`. -/
def truthyOpt : Option String → Bool
  | some s => s != ""
  | none => false

/-- The arguments of `run_vecset_edit` (app.py lines 84–103).  File inputs
are local filepaths or `None`; the numeric widget values are kept as the
Python scalars Gradio delivers; the checkbox value is kept as a scalar and
tested for truthiness exactly where the source does. -/
structure GuiIn where
  mesh_file : Option String
  edit_image : Option String
  mask_image : Option String
  render_image : Option String
  azimuth : JVal
  elevation : JVal
  scale : JVal
  attentive_2d : JVal
  cut_off_p : JVal
  topk_percent_2d : JVal
  threshold_percent_2d : JVal
  step_pruning : JVal
  edit_strength : JVal
  guidance_scale : JVal
  run_texture_repaint : JVal
  seed : JVal
  render_method : String

/-- The value returned by `run_vecset_edit`.  The source returns a
six-element tuple (five `None`s and a message) on its failure paths and a
seven-element tuple on success, so the two shapes are two constructors.
The `success` fields follow the source's return order: edited mesh,
textured mesh, masked input, selected-token views, edited-mesh views,
archive, log. -/
inductive GuiResult where
  | failure (message : String)
  | success (edited_mesh texture_mesh masked_input selected_views edited_views
      archive : Option String) (log : String)
deriving DecidableEq, Repr

/-- Is the result one of the failure-path tuples? -/
def GuiResult.isFailure : GuiResult → Bool
  | .failure _ => true
  | .success _ _ _ _ _ _ _ => false

/-- The log / message text surfaced to the user by either shape. -/
def GuiResult.logOf : GuiResult → String
  | .failure m => m
  | .success _ _ _ _ _ _ log => log

/-- `_run_cmd` (app.py lines 40–58): identical log construction and
verbatim exit code as the handler's `_run_cmd`; the extra per-line
mirroring to the process-wide logger is not an observable of any claim
and is not traced. -/
def _run_cmd (env : Env) (cmd : List String) (workdir : String) :
    (Int × String) × List Effect :=
  let result := env.run cmd workdir
  let log := ["$ " ++ String.intercalate " " cmd]
  let log := if result.stdout = "" then log else log ++ [result.stdout]
  let log := if result.stderr = "" then log else log ++ [result.stderr]
  ((result.returncode, String.intercalate "\n" log), [Effect.runProcE cmd workdir])

/-- `_copy_uploaded` (app.py lines 61–65): ensure the directory and copy
the uploaded file under the chosen name. -/
def _copy_uploaded (src_path dest_dir dest_name : String) : String × List Effect :=
  (pjoin dest_dir dest_name,
   [Effect.mkdirE dest_dir, Effect.copyE src_path (pjoin dest_dir dest_name)])

/-- `_new_run_dir` (app.py lines 68–76): `RUNS_DIR/<run_id>`. -/
def runDirOf (env : Env) : String :=
  pjoin (pjoin env.rootDir "runs") env.genRunId

/-- The run's `input` directory (app.py line 72). -/
def inputDirOf (env : Env) : String :=
  pjoin (runDirOf env) "input"

/-- The run's `output` directory (app.py line 73). -/
def outputDirOf (env : Env) : String :=
  pjoin (runDirOf env) "output"

/-- `_zip_dir` (app.py lines 79–81). -/
def _zip_dir (src_dir dest_base : String) : String × List Effect :=
  (dest_base ++ ".zip", [Effect.zipE src_dir dest_base])

/-- `render_name` (app.py lines 153–156): the basename of the render
upload when that upload is truthy, else `None`. -/
def renderNameOf (g : GuiIn) : Option String :=
  if truthyOpt g.render_image then some (basename (g.render_image.getD ""))
  else none

/-- The stage-1 command line (app.py lines 159–194): the interpreter is
`sys.executable`, the script path is relative (the child runs with
`cwd = ROOT_DIR`), and `--render_image` is appended iff `render_name` is
truthy. -/
def stage1Cmd (env : Env) (g : GuiIn) : List String :=
  let base :=
    [env.pyExe, "vecset_edit.py",
     "--input_dir", inputDirOf env,
     "--output_dir", outputDirOf env,
     "--mesh_file", basename (g.mesh_file.getD ""),
     "--edit_image", basename (g.edit_image.getD ""),
     "--mask_image", basename (g.mask_image.getD ""),
     "--azimuth", pyStrOf g.azimuth,
     "--elevation", pyStrOf g.elevation,
     "--scale", pyStrOf g.scale,
     "--attentive_2d", pyStrOf g.attentive_2d,
     "--cut_off_p", pyStrOf g.cut_off_p,
     "--topk_percent_2d", pyStrOf g.topk_percent_2d,
     "--threshold_percent_2d", pyStrOf g.threshold_percent_2d,
     "--step_pruning", pyStrOf g.step_pruning,
     "--edit_strength", pyStrOf g.edit_strength,
     "--guidance_scale", pyStrOf g.guidance_scale]
  match renderNameOf g with
  | some rn => if rn ≠ "" then base ++ ["--render_image", rn] else base
  | none => base

/-- The stage-1 invocation (app.py line 197), with `cwd = ROOT_DIR`. -/
def stage1 (env : Env) (g : GuiIn) : (Int × String) × List Effect :=
  _run_cmd env (stage1Cmd env g) env.rootDir

/-- The stage-2 command line (app.py lines 218–233): texture repaint over
stage-1 artifacts in the output directory. -/
def stage2Cmd (env : Env) (g : GuiIn) : List String :=
  [env.pyExe, "preserving_texture_baking.py",
   "--input_mesh", pjoin (outputDirOf env) "edited_mesh.glb",
   "--ref_mesh", pjoin (outputDirOf env) "source_model.glb",
   "--texture_image", pjoin (outputDirOf env) "2d_edit.png",
   "--output_dir", outputDirOf env,
   "--seed", pyStrOf g.seed,
   "--render_method", g.render_method]

/-- The stage-2 invocation (app.py line 234), with `cwd = ROOT_DIR`. -/
def stage2 (env : Env) (g : GuiIn) : (Int × String) × List Effect :=
  _run_cmd env (stage2Cmd env g) env.rootDir

/-- The tail of `run_vecset_edit` after a zero stage-1 exit (app.py
lines 209–255): optionally run texture repaint — a non-zero stage-2 exit
does NOT fail the run: it appends a note to the log and leaves the
textured-mesh slot `None` — then archive the output directory and return
the existence-filtered artifact paths. -/
def afterEdit (env : Env) (g : GuiIn) (log : String) (effs : List Effect) :
    GuiResult × List Effect :=
  let edited_mesh := pjoin (outputDirOf env) "edited_mesh.glb"
  let edited_views := pjoin (outputDirOf env) "edited_mesh_views.png"
  let selected_views := pjoin (outputDirOf env) "selected_fixed_tokens_views.png"
  let masked_input := pjoin (outputDirOf env) "2d_masked_input.png"
  let tme : Option String × String × List Effect :=
    if pyTruthy g.run_texture_repaint then
      let log := log ++ "\n\n" ++ (stage2 env g).1.2
      if (stage2 env g).1.1 = 0 then
        (some (pjoin (outputDirOf env) "mv_repaint_model.glb"), log, effs ++ (stage2 env g).2)
      else
        (none,
         log ++ "\nTexture repaint failed (exit code " ++ toString (stage2 env g).1.1 ++ ").",
         effs ++ (stage2 env g).2)
    else (none, log, effs)
  let archive := _zip_dir (outputDirOf env) (pjoin (runDirOf env) "results")
  (GuiResult.success
    (if env.pathExists edited_mesh then some edited_mesh else none)
    (match tme.1 with
     | some t => if t ≠ "" && env.pathExists t then some t else none
     | none => none)
    (if env.pathExists masked_input then some masked_input else none)
    (if env.pathExists selected_views then some selected_views else none)
    (if env.pathExists edited_views then some edited_views else none)
    (if env.pathExists archive.1 then some archive.1 else none)
    tme.2.1,
   tme.2.2 ++ archive.2)

/-- `run_vecset_edit` (app.py lines 84–255): reject requests with a
mandatory upload `is None`; otherwise allocate the run directory, copy the
uploads in, run stage 1, fail on non-zero exit surfacing stage 1's log
only, else continue with `afterEdit`. -/
def run_vecset_edit (env : Env) (g : GuiIn) : GuiResult × List Effect :=
  if g.mesh_file.isNone || g.edit_image.isNone || g.mask_image.isNone then
    (.failure "Missing required inputs: mesh, edited image, and mask image are required.", [])
  else
    let effs : List Effect := [Effect.mkdirE (inputDirOf env), Effect.mkdirE (outputDirOf env)]
    let effs := effs ++
      (_copy_uploaded (g.mesh_file.getD "") (inputDirOf env) (basename (g.mesh_file.getD ""))).2 ++
      (_copy_uploaded (g.edit_image.getD "") (inputDirOf env) (basename (g.edit_image.getD ""))).2 ++
      (_copy_uploaded (g.mask_image.getD "") (inputDirOf env) (basename (g.mask_image.getD ""))).2 ++
      (if truthyOpt g.render_image then
        (_copy_uploaded (g.render_image.getD "") (inputDirOf env)
          (basename (g.render_image.getD ""))).2
       else [])
    let effs := effs ++ (stage1 env g).2
    if (stage1 env g).1.1 ≠ 0 then
      (.failure ("VecSetEdit failed (exit code " ++ toString (stage1 env g).1.1 ++ ").\n\n" ++
        (stage1 env g).1.2), effs)
    else afterEdit env g (stage1 env g).1.2 effs

end App

/-! ### Concrete environments and inputs used by witnesses and counterexamples -/

/-- A benign environment: both stages exit 0 with empty output, no file
exists, file reads are empty. -/
def env0 : Env :=
  { genRunId := "RUN", mkdtemp := fun p => "/tmp/" ++ p, repoDir := "/repo",
    rootDir := "/app", pyExe := "py", run := fun _ _ => ⟨0, "", ""⟩,
    pathExists := fun _ => false, fileSize := fun _ => 0, fileB64 := fun _ => "" }

/-- An environment in which the texture-repaint stage (recognised by its
`--input_mesh` flag) fails with exit code 1 while the edit stage succeeds,
and every artifact exists on disk. -/
def texFailEnv : Env :=
  { env0 with
    run := fun cmd _ =>
      if cmd.contains "--input_mesh" then ⟨1, "", "tex-err"⟩ else ⟨0, "edit-ok", ""⟩,
    pathExists := fun _ => true }

/-- An environment in which every child process fails with exit code 3. -/
def editFailEnv : Env :=
  { env0 with run := fun _ _ => ⟨3, "", "boom"⟩ }

/-- The request of claim C8: three base64 slots, `attentive_2d = 8`,
`guidance_scale = 7.5`, no URL or filename keys. -/
def d8 : JObj :=
  [("mesh_base64", .vStr "R0xC"), ("edit_image_base64", .vStr "UE5H"),
   ("mask_image_base64", .vStr "TUFTSw=="), ("attentive_2d", .vInt 8),
   ("guidance_scale", .vFloat (mkRat 15 2))]

/-- A resolvable job-handler input requesting the texture-repaint stage. -/
def dTex : JObj :=
  [("mesh_base64", .vStr "QQ=="), ("edit_image_base64", .vStr "Qg=="),
   ("mask_image_base64", .vStr "Qw=="), ("run_texture_repaint", .vBool true)]

/-- A job-handler input with truthy-but-not-`True` values in every boolean
gate key. -/
def dGates : JObj :=
  [("dry_run", .vStr "true"), ("run_texture_repaint", .vInt 1),
   ("return_files", .vStr "true"), ("return_zip_base64", .vInt 1)]

/-- The input of the C6 counterexample: the filename hint is present but
empty, and the slot resolves from base64. -/
def dHint : JObj :=
  [("mesh_filename", .vStr ""), ("mesh_base64", .vStr "QUJD")]

/-- A slot input with a non-empty filename hint and base64 bytes. -/
def dNamed : JObj :=
  [("mesh_filename", .vStr "m.glb"), ("mesh_base64", .vStr "QUJD")]

/-- A complete GUI request with the documented widget defaults and the
texture-repaint checkbox off. -/
def g0 : App.GuiIn :=
  { mesh_file := some "/u/m.glb", edit_image := some "/u/e.png",
    mask_image := some "/u/k.png", render_image := none,
    azimuth := .vFloat (mkRat 0 1), elevation := .vFloat (mkRat 0 1),
    scale := .vFloat (mkRat 2 1), attentive_2d := .vInt 8,
    cut_off_p := .vFloat (mkRat 1 2), topk_percent_2d := .vFloat (mkRat 1 5),
    threshold_percent_2d := .vFloat (mkRat 1 10), step_pruning := .vInt 5,
    edit_strength := .vFloat (mkRat 7 10), guidance_scale := .vFloat (mkRat 15 2),
    run_texture_repaint := .vBool false, seed := .vInt 99999,
    render_method := "nvdiffrast" }

/-- `g0` with the texture-repaint checkbox ticked. -/
def gTex : App.GuiIn := { g0 with run_texture_repaint := .vBool true }

/-! ### Helper lemmas -/

/-- Input resolution performs no child-process invocation. -/
theorem get_input_file_no_run (d : JObj) (p dir n : String) :
    (Handler._get_input_file d p dir n).2.filter Effect.isRun = [] := by
  unfold Handler._get_input_file
  dsimp only
  split
  · rfl
  · split <;> rfl

/-- Workspace allocation performs no child-process invocation. -/
theorem allocEffects_no_run (env : Env) (d : JObj) :
    (Handler.allocEffects env d).filter Effect.isRun = [] := rfl

/-- The names of the collected outputs are exactly the catalog entries
whose files exist in the output directory, in catalog order. -/
theorem collect_outputs_names (env : Env) (output_dir : String) :
    (Handler._collect_outputs env output_dir).map Prod.fst =
      Handler.catalog.filter (fun name => env.pathExists (pjoin output_dir name)) := by
  unfold Handler._collect_outputs
  generalize Handler.catalog = L
  induction L with
  | nil => rfl
  | cons a t ih =>
    by_cases h : env.pathExists (pjoin output_dir a) = true
    · simp [List.filterMap_cons, List.filter_cons, h, ih]
    · simp [List.filterMap_cons, List.filter_cons, h, ih]

/-- The success payload always carries `status = "ok"`, whatever the
packaging gates say. -/
theorem packResult_status (env : Env) (d : JObj) (log : String)
    (texture_log : Option String) (effs : List Effect) :
    (Handler.packResult env d log texture_log effs).1.status = "ok" := by
  unfold Handler.packResult
  dsimp only
  split <;> split <;> rfl

/-- The success payload always carries the run id. -/
theorem packResult_run_id (env : Env) (d : JObj) (log : String)
    (texture_log : Option String) (effs : List Effect) :
    (Handler.packResult env d log texture_log effs).1.run_id =
      some (Handler.runIdOf env d) := by
  unfold Handler.packResult
  dsimp only
  split <;> split <;> rfl

/-- The success payload always carries the collected output names. -/
theorem packResult_outputs (env : Env) (d : JObj) (log : String)
    (texture_log : Option String) (effs : List Effect) :
    (Handler.packResult env d log texture_log effs).1.outputs =
      some ((Handler._collect_outputs env (Handler.outputDirOf env d)).map Prod.fst) := by
  unfold Handler.packResult
  dsimp only
  split <;> split <;> rfl

/-- The success payload always carries the aggregated log: the edit-stage
log alone, or with a truthy texture-stage log appended. -/
theorem packResult_log (env : Env) (d : JObj) (log : String)
    (texture_log : Option String) (effs : List Effect) :
    (Handler.packResult env d log texture_log effs).1.log =
      some (match texture_log with
        | some t => if t = "" then log else log ++ "\n\n" ++ t
        | none => log) := by
  unfold Handler.packResult
  dsimp only
  split <;> split <;> rfl

/-- The effect trace of the handler's stage-1 invocation is exactly one
process run. -/
theorem stage1_effects (env : Env) (d : JObj) :
    (Handler.stage1 env d).2 = [Effect.runProcE (Handler.stage1Cmd env d) env.repoDir] := rfl

/-- The effect trace of the GUI's stage-1 invocation is exactly one
process run. -/
theorem app_stage1_effects (env : Env) (g : App.GuiIn) :
    (App.stage1 env g).2 = [Effect.runProcE (App.stage1Cmd env g) env.rootDir] := rfl

/-! ### Claim theorems -/

set_option maxRecDepth 10000 in
/-- Claim C1 (counterexample): in the GUI front-end, a request whose
texture-repaint stage was requested and fails (exit 1) after a successful
edit stage (exit 0) does NOT produce an overall failure — the result is
the success tuple (with the textured-mesh slot `None`) — and the surfaced
log is not the plain concatenation of the two stages' logs (a failure
note is appended).  This refutes the claim's "holds in both front-ends". -/
theorem C1_counterexample :
    (App.stage1 texFailEnv gTex).1.1 = 0 ∧
    pyTruthy gTex.run_texture_repaint = true ∧
    (App.stage2 texFailEnv gTex).1.1 ≠ 0 ∧
    (App.run_vecset_edit texFailEnv gTex).1.isFailure = false ∧
    (App.run_vecset_edit texFailEnv gTex).1.logOf ≠
      (App.stage1 texFailEnv gTex).1.2 ++ "\n\n" ++ (App.stage2 texFailEnv gTex).1.2 :=
  ⟨rfl, rfl, by decide, rfl, by decide⟩

/-- Claim C1 (amended): when a requested texture-repaint stage exits
non-zero after a zero edit-stage exit, the JOB HANDLER returns overall
failure with the two stages' logs concatenated; the GUI instead finishes
the run as a success tuple whose textured-mesh slot is `None`, with the
two logs concatenated and a texture-repaint failure note appended. -/
theorem C1_theorem :
    (∀ (env : Env) (d : JObj),
      pyGet d "dry_run" ≠ some (.vBool true) →
      Handler.missingOf env d = [] →
      (Handler.stage1 env d).1.1 = 0 →
      pyGet d "run_texture_repaint" = some (.vBool true) →
      (Handler.stage2 env d).1.1 ≠ 0 →
      (Handler.handlerCore env d).1 =
        { status := "error", message := some "texture repaint failed",
          log := some ((Handler.stage1 env d).1.2 ++ "\n\n" ++ (Handler.stage2 env d).1.2) }) ∧
    (∀ (env : Env) (g : App.GuiIn),
      g.mesh_file.isNone = false → g.edit_image.isNone = false →
      g.mask_image.isNone = false →
      (App.stage1 env g).1.1 = 0 →
      pyTruthy g.run_texture_repaint = true →
      (App.stage2 env g).1.1 ≠ 0 →
      (App.run_vecset_edit env g).1 =
        App.GuiResult.success
          (if env.pathExists (pjoin (App.outputDirOf env) "edited_mesh.glb") then
            some (pjoin (App.outputDirOf env) "edited_mesh.glb") else none)
          none
          (if env.pathExists (pjoin (App.outputDirOf env) "2d_masked_input.png") then
            some (pjoin (App.outputDirOf env) "2d_masked_input.png") else none)
          (if env.pathExists (pjoin (App.outputDirOf env) "selected_fixed_tokens_views.png") then
            some (pjoin (App.outputDirOf env) "selected_fixed_tokens_views.png") else none)
          (if env.pathExists (pjoin (App.outputDirOf env) "edited_mesh_views.png") then
            some (pjoin (App.outputDirOf env) "edited_mesh_views.png") else none)
          (if env.pathExists (pjoin (App.runDirOf env) "results" ++ ".zip") then
            some (pjoin (App.runDirOf env) "results" ++ ".zip") else none)
          ((App.stage1 env g).1.2 ++ "\n\n" ++ (App.stage2 env g).1.2 ++
            "\nTexture repaint failed (exit code " ++
            toString (App.stage2 env g).1.1 ++ ").")) := by
  constructor
  · intro env d hdry hmiss h1 hgate h2
    simp [Handler.handlerCore, hdry, Handler.handlerAfterDry, hmiss, h1,
      Handler.afterStage1, hgate, h2]
  · intro env g hm he hk h1 hgate h2
    simp [App.run_vecset_edit, hm, he, hk, h1, App.afterEdit, hgate, h2,
      App._zip_dir]

/-- Claim C1 witness: the amended statement instantiated — the handler on
a concrete texture-failing request, and the GUI on the concrete
counterexample request. -/
theorem C1_witness :
    (Handler.handlerCore texFailEnv dTex).1 =
      { status := "error", message := some "texture repaint failed",
        log := some ((Handler.stage1 texFailEnv dTex).1.2 ++ "\n\n" ++
          (Handler.stage2 texFailEnv dTex).1.2) } ∧
    (App.run_vecset_edit texFailEnv gTex).1 =
      App.GuiResult.success
        (some (pjoin (App.outputDirOf texFailEnv) "edited_mesh.glb"))
        none
        (some (pjoin (App.outputDirOf texFailEnv) "2d_masked_input.png"))
        (some (pjoin (App.outputDirOf texFailEnv) "selected_fixed_tokens_views.png"))
        (some (pjoin (App.outputDirOf texFailEnv) "edited_mesh_views.png"))
        (some (pjoin (App.runDirOf texFailEnv) "results" ++ ".zip"))
        ((App.stage1 texFailEnv gTex).1.2 ++ "\n\n" ++ (App.stage2 texFailEnv gTex).1.2 ++
          "\nTexture repaint failed (exit code " ++
          toString (App.stage2 texFailEnv gTex).1.1 ++ ").") :=
  ⟨C1_theorem.1 texFailEnv dTex (by decide) (by decide) rfl (by decide) (by decide),
   C1_theorem.2 texFailEnv gTex rfl rfl rfl rfl rfl (by decide)⟩

/-- Claim C2: when the edit stage exits non-zero, the texture-repaint
stage is never invoked (the trace contains exactly the one edit-stage
process invocation), even with `run_texture_repaint=true` (the statement
does not constrain that key), and the surfaced log is the edit stage's
log only — in both front-ends. -/
theorem C2_theorem :
    (∀ (env : Env) (d : JObj),
      pyGet d "dry_run" ≠ some (.vBool true) →
      Handler.missingOf env d = [] →
      (Handler.stage1 env d).1.1 ≠ 0 →
      (Handler.handlerCore env d).1 =
        { status := "error", message := some "vecset_edit failed",
          log := some (Handler.stage1 env d).1.2 } ∧
      (Handler.handlerCore env d).2.filter Effect.isRun =
        [Effect.runProcE (Handler.stage1Cmd env d) env.repoDir]) ∧
    (∀ (env : Env) (g : App.GuiIn),
      g.mesh_file.isNone = false → g.edit_image.isNone = false →
      g.mask_image.isNone = false →
      (App.stage1 env g).1.1 ≠ 0 →
      (App.run_vecset_edit env g).1 =
        App.GuiResult.failure ("VecSetEdit failed (exit code " ++
          toString (App.stage1 env g).1.1 ++ ").\n\n" ++ (App.stage1 env g).1.2) ∧
      (App.run_vecset_edit env g).2.filter Effect.isRun =
        [Effect.runProcE (App.stage1Cmd env g) env.rootDir]) := by
  constructor
  · intro env d hdry hmiss h1
    constructor
    · simp [Handler.handlerCore, hdry, Handler.handlerAfterDry, hmiss, h1]
    · simp [Handler.handlerCore, hdry, Handler.handlerAfterDry, hmiss, h1,
        Handler.meshRes, Handler.editRes, Handler.maskRes, Handler.renderRes,
        List.filter_append, get_input_file_no_run, allocEffects_no_run,
        stage1_effects, Effect.isRun]
  · intro env g hm he hk h1
    constructor
    · simp [App.run_vecset_edit, hm, he, hk, h1]
    · simp [App.run_vecset_edit, hm, he, hk, h1, App._copy_uploaded,
        List.filter_append, apply_ite (List.filter Effect.isRun),
        app_stage1_effects, Effect.isRun]

/-- Claim C2 witness: both conjuncts instantiated at a concrete request
with `run_texture_repaint=true` against an environment whose edit stage
exits 3. -/
theorem C2_witness :
    ((Handler.handlerCore editFailEnv dTex).1 =
      { status := "error", message := some "vecset_edit failed",
        log := some (Handler.stage1 editFailEnv dTex).1.2 } ∧
     (Handler.handlerCore editFailEnv dTex).2.filter Effect.isRun =
       [Effect.runProcE (Handler.stage1Cmd editFailEnv dTex) editFailEnv.repoDir]) ∧
    ((App.run_vecset_edit editFailEnv gTex).1 =
      App.GuiResult.failure ("VecSetEdit failed (exit code " ++
        toString (App.stage1 editFailEnv gTex).1.1 ++ ").\n\n" ++
        (App.stage1 editFailEnv gTex).1.2) ∧
     (App.run_vecset_edit editFailEnv gTex).2.filter Effect.isRun =
       [Effect.runProcE (App.stage1Cmd editFailEnv gTex) editFailEnv.rootDir]) :=
  ⟨C2_theorem.1 editFailEnv dTex (by decide) (by decide) (by decide),
   C2_theorem.2 editFailEnv gTex rfl rfl rfl (by decide)⟩

/-- Claim C3: a non-dry-run job-handler request with at least one
unresolved mandatory slot gets an error response whose message lists
exactly the unresolved slot names, aggregated in the checked order
mesh, edit_image, mask_image, and no stage process is ever invoked.
The optional render slot is unconstrained. -/
theorem C3_theorem (env : Env) (d : JObj)
    (hdry : pyGet d "dry_run" ≠ some (.vBool true))
    (hmiss : (Handler.meshRes env d).1 = none ∨ (Handler.editRes env d).1 = none ∨
      (Handler.maskRes env d).1 = none) :
    (Handler.handlerCore env d).1.status = "error" ∧
    (Handler.handlerCore env d).1.message =
      some ("Missing required inputs: " ++
        String.intercalate ", " (Handler.missingOf env d)) ∧
    Handler.missingOf env d =
      ((if (Handler.meshRes env d).1 = none then ["mesh"] else []) ++
       (if (Handler.editRes env d).1 = none then ["edit_image"] else []) ++
       (if (Handler.maskRes env d).1 = none then ["mask_image"] else [])) ∧
    (Handler.handlerCore env d).2.filter Effect.isRun = [] := by
  have hchar : Handler.missingOf env d =
      ((if (Handler.meshRes env d).1 = none then ["mesh"] else []) ++
       (if (Handler.editRes env d).1 = none then ["edit_image"] else []) ++
       (if (Handler.maskRes env d).1 = none then ["mask_image"] else [])) := by
    cases hA : (Handler.meshRes env d).1 <;> cases hB : (Handler.editRes env d).1 <;>
      cases hC : (Handler.maskRes env d).1 <;>
      simp [Handler.missingOf, hA, hB, hC]
  have hne : Handler.missingOf env d ≠ [] := by
    cases hA : (Handler.meshRes env d).1 <;> cases hB : (Handler.editRes env d).1 <;>
      cases hC : (Handler.maskRes env d).1 <;>
      simp_all [Handler.missingOf]
  refine ⟨?_, ?_, hchar, ?_⟩
  · simp [Handler.handlerCore, hdry, Handler.handlerAfterDry, hne]
  · simp [Handler.handlerCore, hdry, Handler.handlerAfterDry, hne]
  · simp [Handler.handlerCore, hdry, Handler.handlerAfterDry, hne,
      Handler.meshRes, Handler.editRes, Handler.maskRes, Handler.renderRes,
      List.filter_append, get_input_file_no_run, allocEffects_no_run]

/-- Claim C3 witness: the empty request resolves nothing; all three slot
names are reported. -/
theorem C3_witness :
    (Handler.handlerCore env0 []).1.status = "error" ∧
    (Handler.handlerCore env0 []).1.message =
      some ("Missing required inputs: " ++
        String.intercalate ", " (Handler.missingOf env0 [])) ∧
    Handler.missingOf env0 [] =
      ((if (Handler.meshRes env0 []).1 = none then ["mesh"] else []) ++
       (if (Handler.editRes env0 []).1 = none then ["edit_image"] else []) ++
       (if (Handler.maskRes env0 []).1 = none then ["mask_image"] else [])) ∧
    (Handler.handlerCore env0 []).2.filter Effect.isRun = [] :=
  C3_theorem env0 [] (by decide) (Or.inl rfl)

/-- Claim C5: in both front-ends, `_run_cmd` returns the process's exit
code verbatim together with the newline-joined concatenation of
`"$ " + space-joined command`, the captured stdout only if non-empty, and
the captured stderr only if non-empty; it is a total function — a
non-zero exit is an ordinary return value, not an exception. -/
theorem C5_theorem :
    (∀ (env : Env) (cmd : List String) (workdir : String),
      Handler._run_cmd env cmd workdir =
        (((env.run cmd workdir).returncode,
          String.intercalate "\n"
            (["$ " ++ String.intercalate " " cmd] ++
             (if (env.run cmd workdir).stdout = "" then []
              else [(env.run cmd workdir).stdout]) ++
             (if (env.run cmd workdir).stderr = "" then []
              else [(env.run cmd workdir).stderr]))),
         [Effect.runProcE cmd workdir])) ∧
    (∀ (env : Env) (cmd : List String) (workdir : String),
      App._run_cmd env cmd workdir =
        (((env.run cmd workdir).returncode,
          String.intercalate "\n"
            (["$ " ++ String.intercalate " " cmd] ++
             (if (env.run cmd workdir).stdout = "" then []
              else [(env.run cmd workdir).stdout]) ++
             (if (env.run cmd workdir).stderr = "" then []
              else [(env.run cmd workdir).stderr]))),
         [Effect.runProcE cmd workdir])) := by
  constructor
  · intro env cmd workdir
    unfold Handler._run_cmd
    by_cases ho : (env.run cmd workdir).stdout = "" <;>
      by_cases he : (env.run cmd workdir).stderr = "" <;> simp [ho, he]
  · intro env cmd workdir
    unfold App._run_cmd
    by_cases ho : (env.run cmd workdir).stdout = "" <;>
      by_cases he : (env.run cmd workdir).stderr = "" <;> simp [ho, he]

/-- Claim C9: a `dry_run=True` request returns the fixed reachability
payload and performs no effect at all — no workspace allocation, no input
resolution, no stage invocation. -/
theorem C9_theorem (env : Env) (job : Option JObj)
    (h : pyGet (job.getD []) "dry_run" = some (.vBool true)) :
    Handler.handler env job =
      ({ status := "ok", message := some "dry_run: handler is reachable" }, []) := by
  simp [Handler.handler, Handler.handlerCore, h, Handler.dryRunResp]

/-- Claim C9 witness. -/
theorem C9_witness :
    Handler.handler env0 (some [("dry_run", .vBool true)]) =
      ({ status := "ok", message := some "dry_run: handler is reachable" }, []) :=
  C9_theorem env0 (some [("dry_run", .vBool true)]) (by decide)

/-- Claim C4 (counterexample): the missing-input error response of the job
handler contains no `run_id`, `outputs` or `log` key, refuting the claim
that every response (for both statuses) contains those fields. -/
theorem C4_counterexample :
    (Handler.handler env0 (some [])).1.status = "error" ∧
    (Handler.handler env0 (some [])).1.run_id = none ∧
    (Handler.handler env0 (some [])).1.outputs = none ∧
    (Handler.handler env0 (some [])).1.log = none :=
  ⟨rfl, rfl, rfl, rfl⟩

/-- Claim C4 (amended): only the successful (non-dry-run, fully resolved,
zero-exit) response contains all of `status`, `run_id`, `outputs` and
`log` (with `files` and `zip` optional); the dry-run and missing-input
responses carry only `status` and `message`; stage-failure responses carry
`status`, `message` and `log` but no `run_id` or `outputs`. -/
theorem C4_theorem :
    (∀ (env : Env) (d : JObj),
      pyGet d "dry_run" = some (.vBool true) →
      (Handler.handlerCore env d).1 =
        { status := "ok", message := some "dry_run: handler is reachable" }) ∧
    (∀ (env : Env) (d : JObj),
      pyGet d "dry_run" ≠ some (.vBool true) →
      Handler.missingOf env d ≠ [] →
      (Handler.handlerCore env d).1.status = "error" ∧
      (Handler.handlerCore env d).1.message.isSome = true ∧
      (Handler.handlerCore env d).1.run_id = none ∧
      (Handler.handlerCore env d).1.outputs = none ∧
      (Handler.handlerCore env d).1.log = none) ∧
    (∀ (env : Env) (d : JObj),
      pyGet d "dry_run" ≠ some (.vBool true) →
      Handler.missingOf env d = [] →
      (Handler.stage1 env d).1.1 ≠ 0 →
      (Handler.handlerCore env d).1.status = "error" ∧
      (Handler.handlerCore env d).1.log = some (Handler.stage1 env d).1.2 ∧
      (Handler.handlerCore env d).1.run_id = none ∧
      (Handler.handlerCore env d).1.outputs = none) ∧
    (∀ (env : Env) (d : JObj),
      pyGet d "dry_run" ≠ some (.vBool true) →
      Handler.missingOf env d = [] →
      (Handler.stage1 env d).1.1 = 0 →
      pyGet d "run_texture_repaint" = some (.vBool true) →
      (Handler.stage2 env d).1.1 ≠ 0 →
      (Handler.handlerCore env d).1.status = "error" ∧
      (Handler.handlerCore env d).1.log.isSome = true ∧
      (Handler.handlerCore env d).1.run_id = none ∧
      (Handler.handlerCore env d).1.outputs = none) ∧
    (∀ (env : Env) (d : JObj),
      pyGet d "dry_run" ≠ some (.vBool true) →
      Handler.missingOf env d = [] →
      (Handler.stage1 env d).1.1 = 0 →
      (pyGet d "run_texture_repaint" = some (.vBool true) →
        (Handler.stage2 env d).1.1 = 0) →
      (Handler.handlerCore env d).1.status = "ok" ∧
      (Handler.handlerCore env d).1.run_id.isSome = true ∧
      (Handler.handlerCore env d).1.outputs.isSome = true ∧
      (Handler.handlerCore env d).1.log.isSome = true) := by
  refine ⟨?_, ?_, ?_, ?_, ?_⟩
  · intro env d h
    simp [Handler.handlerCore, h, Handler.dryRunResp]
  · intro env d hdry hne
    simp [Handler.handlerCore, hdry, Handler.handlerAfterDry, hne]
  · intro env d hdry hmiss h1
    simp [Handler.handlerCore, hdry, Handler.handlerAfterDry, hmiss, h1]
  · intro env d hdry hmiss h1 hg h2
    simp [Handler.handlerCore, hdry, Handler.handlerAfterDry, hmiss, h1,
      Handler.afterStage1, hg, h2]
  · intro env d hdry hmiss h1 htex
    by_cases hg : pyGet d "run_texture_repaint" = some (.vBool true)
    · have h2 := htex hg
      simp [Handler.handlerCore, hdry, Handler.handlerAfterDry, hmiss, h1,
        Handler.afterStage1, hg, h2, packResult_status, packResult_run_id,
        packResult_outputs, packResult_log]
    · simp [Handler.handlerCore, hdry, Handler.handlerAfterDry, hmiss, h1,
        Handler.afterStage1, hg, packResult_status, packResult_run_id,
        packResult_outputs, packResult_log]

/-- Claim C4 witness: the dry-run conjunct and the success conjunct
instantiated at concrete requests. -/
theorem C4_witness :
    (Handler.handlerCore env0 [("dry_run", .vBool true)]).1 =
      { status := "ok", message := some "dry_run: handler is reachable" } ∧
    ((Handler.handlerCore env0 d8).1.status = "ok" ∧
     (Handler.handlerCore env0 d8).1.run_id.isSome = true ∧
     (Handler.handlerCore env0 d8).1.outputs.isSome = true ∧
     (Handler.handlerCore env0 d8).1.log.isSome = true) :=
  ⟨C4_theorem.1 env0 [("dry_run", .vBool true)] (by decide),
   C4_theorem.2.2.2.2 env0 d8 (by decide) (by decide) rfl
     (fun hg => absurd hg (by decide))⟩

/-- Claim C6 (counterexample): with the filename hint PRESENT but empty
(`mesh_filename = ""`) and base64 bytes supplied, the resolver writes to
the slot's default name `model.glb`, not to the caller-supplied hint —
refuting "the destination filename is the caller-supplied filename hint
if present". -/
theorem C6_counterexample :
    pyGet dHint "mesh_filename" = some (.vStr "") ∧
    Handler._get_input_file dHint "mesh" "/w/input" "model.glb" =
      (some "/w/input/model.glb",
       [Effect.writeFileE "/w/input/model.glb" (FileSrc.fromB64 "QUJD")]) ∧
    Handler.resolvedName dHint "mesh" "model.glb" ≠ "" :=
  ⟨rfl, rfl, by decide⟩

/-- Claim C6 (amended): slot resolution follows the stated precedence —
a present-and-truthy URL is fetched; otherwise present-and-truthy base64
bytes are decoded and written; otherwise the slot is unresolved with no
file written — and the destination filename is the caller-supplied hint
if present AND non-empty, else the slot's default name, placed under the
given input directory. -/
theorem C6_theorem :
    (∀ (d : JObj) (p dir dflt : String) (u : JVal),
      pyGet d (p ++ "_url") = some u → pyTruthy u = true →
      Handler._get_input_file d p dir dflt =
        (some (pjoin dir (Handler.resolvedName d p dflt)),
         [Effect.downloadE (pyStrOf u) (pjoin dir (Handler.resolvedName d p dflt))])) ∧
    (∀ (d : JObj) (p dir dflt : String) (b : JVal),
      (∀ u, pyGet d (p ++ "_url") = some u → pyTruthy u = false) →
      pyGet d (p ++ "_base64") = some b → pyTruthy b = true →
      Handler._get_input_file d p dir dflt =
        (some (pjoin dir (Handler.resolvedName d p dflt)),
         [Effect.writeFileE (pjoin dir (Handler.resolvedName d p dflt))
           (FileSrc.fromB64 (pyStrOf b))])) ∧
    (∀ (d : JObj) (p dir dflt : String),
      (∀ u, pyGet d (p ++ "_url") = some u → pyTruthy u = false) →
      (∀ b, pyGet d (p ++ "_base64") = some b → pyTruthy b = false) →
      Handler._get_input_file d p dir dflt = (none, [])) ∧
    (∀ (d : JObj) (p dflt s : String),
      pyGet d (p ++ "_filename") = some (.vStr s) → s ≠ "" →
      Handler.resolvedName d p dflt = s) ∧
    (∀ (d : JObj) (p dflt : String),
      pyGet d (p ++ "_filename") = none ∨
        pyGet d (p ++ "_filename") = some (.vStr "") →
      Handler.resolvedName d p dflt = dflt) := by
  have hkey : ∀ (d : JObj) (k : String),
      (∀ u, pyGet d k = some u → pyTruthy u = false) →
      Option.any pyTruthy (pyGet d k) = false := by
    intro d k h
    cases hu : pyGet d k with
    | none => simp
    | some u => simp [h u hu]
  refine ⟨?_, ?_, ?_, ?_, ?_⟩
  · intro d p dir dflt u hU htr
    have hU' : truthyKey d (p ++ "_url") = true := by simp [truthyKey, hU, htr]
    simp [Handler._get_input_file, hU', hU]
  · intro d p dir dflt b hU hB htr
    have hU' : truthyKey d (p ++ "_url") = false := hkey d (p ++ "_url") hU
    have hB' : truthyKey d (p ++ "_base64") = true := by simp [truthyKey, hB, htr]
    simp [Handler._get_input_file, hU', hB', hB]
  · intro d p dir dflt hU hB
    have hU' : truthyKey d (p ++ "_url") = false := hkey d (p ++ "_url") hU
    have hB' : truthyKey d (p ++ "_base64") = false := hkey d (p ++ "_base64") hB
    simp [Handler._get_input_file, hU', hB']
  · intro d p dflt s h hs
    simp [Handler.resolvedName, h, pyTruthy, bne_iff_ne, hs, pyStrOf]
  · intro d p dflt h
    rcases h with h | h <;> simp [Handler.resolvedName, h, pyTruthy]

/-- Claim C6 witness: the base64 branch with a non-empty hint, resolved to
the hint's name under the input directory. -/
theorem C6_witness :
    Handler._get_input_file dNamed "mesh" "/w/input" "model.glb" =
      (some (pjoin "/w/input" (Handler.resolvedName dNamed "mesh" "model.glb")),
       [Effect.writeFileE (pjoin "/w/input" (Handler.resolvedName dNamed "mesh" "model.glb"))
         (FileSrc.fromB64 "QUJD")]) ∧
    Handler.resolvedName dNamed "mesh" "model.glb" = "m.glb" :=
  ⟨C6_theorem.2.1 dNamed "mesh" "/w/input" "model.glb" (.vStr "QUJD")
      (fun u hu => by
        have hn : pyGet dNamed ("mesh" ++ "_url") = none := by decide
        rw [hn] at hu
        exact Option.noConfusion hu)
      (by decide) rfl,
   C6_theorem.2.2.2.1 dNamed "mesh" "model.glb" "m.glb" (by decide) (by decide)⟩

/-- Claim C7: after a successful pipeline (edit stage exits 0 and the
texture stage, when requested, exits 0), the returned artifact-name list
is exactly the subset of the fixed seven-name catalog whose files exist in
the run's output directory — membership judged by the existence oracle
only. -/
theorem C7_theorem (env : Env) (d : JObj)
    (hdry : pyGet d "dry_run" ≠ some (.vBool true))
    (hmiss : Handler.missingOf env d = [])
    (h1 : (Handler.stage1 env d).1.1 = 0)
    (htex : pyGet d "run_texture_repaint" = some (.vBool true) →
      (Handler.stage2 env d).1.1 = 0) :
    (Handler.handlerCore env d).1.status = "ok" ∧
    (Handler.handlerCore env d).1.outputs =
      some (Handler.catalog.filter
        (fun name => env.pathExists (pjoin (Handler.outputDirOf env d) name))) := by
  by_cases hg : pyGet d "run_texture_repaint" = some (.vBool true)
  · have h2 := htex hg
    simp [Handler.handlerCore, hdry, Handler.handlerAfterDry, hmiss, h1,
      Handler.afterStage1, hg, h2, packResult_status, packResult_outputs,
      collect_outputs_names]
  · simp [Handler.handlerCore, hdry, Handler.handlerAfterDry, hmiss, h1,
      Handler.afterStage1, hg, packResult_status, packResult_outputs,
      collect_outputs_names]

/-- Claim C7 witness: the success path of the concrete C8 request. -/
theorem C7_witness :
    (Handler.handlerCore env0 d8).1.status = "ok" ∧
    (Handler.handlerCore env0 d8).1.outputs =
      some (Handler.catalog.filter
        (fun name => env0.pathExists (pjoin (Handler.outputDirOf env0 d8) name))) :=
  C7_theorem env0 d8 (by decide) (by decide) rfl (fun hg => absurd hg (by decide))

set_option maxRecDepth 10000 in
/-- Claim C8: on the concrete request with three base64 slots,
`attentive_2d = 8` and `guidance_scale = 7.5`, the resolver writes exactly
the three files `model.glb`, `2d_edit.png`, `2d_mask.png` into the run's
input directory, a single stage is invoked, and its argument vector —
with every other numeric parameter at its documented default — contains
the pairs `--attentive_2d 8` and `--guidance_scale 7.5`. -/
theorem C8_theorem :
    (Handler.handler env0 (some d8)).2.filterMap Effect.writtenFile =
      ["/tmp/vecset_RUN_/input/model.glb", "/tmp/vecset_RUN_/input/2d_edit.png",
       "/tmp/vecset_RUN_/input/2d_mask.png"] ∧
    runCmdsOf (Handler.handler env0 (some d8)).2 = [Handler.stage1Cmd env0 d8] ∧
    Handler.stage1Cmd env0 d8 =
      ["python", "/repo/vecset_edit.py", "--input_dir", "/tmp/vecset_RUN_/input",
       "--output_dir", "/tmp/vecset_RUN_/output", "--mesh_file", "model.glb",
       "--edit_image", "2d_edit.png", "--mask_image", "2d_mask.png",
       "--azimuth", "0.0", "--elevation", "0.0", "--scale", "2.0",
       "--attentive_2d", "8", "--cut_off_p", "0.5", "--topk_percent_2d", "0.2",
       "--threshold_percent_2d", "0.1", "--step_pruning", "5",
       "--edit_strength", "0.7", "--guidance_scale", "7.5"] ∧
    ["--attentive_2d", "8"] <:+: Handler.stage1Cmd env0 d8 ∧
    ["--guidance_scale", "7.5"] <:+: Handler.stage1Cmd env0 d8 :=
  ⟨rfl, rfl, rfl, by decide, by decide⟩

/-- Claim C10: each boolean gate of the job handler compares with `is
True`, so any value other than the boolean `True` — absent, the string
"true", the integer 1 — leaves the gated feature disabled exactly as if
the key were absent: a non-`True` `dry_run` falls through to the normal
path, a non-`True` `run_texture_repaint` skips stage 2 and packages with
no texture log, and non-`True` `return_files` / `return_zip_base64` leave
the `files` / `zip` keys out of the response. -/
theorem C10_theorem :
    (∀ (env : Env) (d : JObj),
      pyGet d "dry_run" ≠ some (.vBool true) →
      Handler.handlerCore env d = Handler.handlerAfterDry env d) ∧
    (∀ (env : Env) (d : JObj) (log : String) (effs : List Effect),
      pyGet d "run_texture_repaint" ≠ some (.vBool true) →
      Handler.afterStage1 env d log effs = Handler.packResult env d log none effs) ∧
    (∀ (env : Env) (d : JObj) (log : String) (tl : Option String) (effs : List Effect),
      pyGet d "return_files" ≠ some (.vBool true) →
      (Handler.packResult env d log tl effs).1.files = none) ∧
    (∀ (env : Env) (d : JObj) (log : String) (tl : Option String) (effs : List Effect),
      pyGet d "return_zip_base64" ≠ some (.vBool true) →
      (Handler.packResult env d log tl effs).1.zip = none) := by
  refine ⟨?_, ?_, ?_, ?_⟩
  · intro env d h
    simp [Handler.handlerCore, h]
  · intro env d log effs h
    simp [Handler.afterStage1, h]
  · intro env d log tl effs h
    unfold Handler.packResult
    dsimp only
    rw [if_neg h]
    split <;> rfl
  · intro env d log tl effs h
    unfold Handler.packResult
    dsimp only
    rw [if_neg h]
    split <;> rfl

/-- Claim C10 witness: all four gates instantiated with truthy-but-not-
`True` values (`"true"` and `1`). -/
theorem C10_witness :
    Handler.handlerCore env0 dGates = Handler.handlerAfterDry env0 dGates ∧
    Handler.afterStage1 env0 dGates "L" [] = Handler.packResult env0 dGates "L" none [] ∧
    (Handler.packResult env0 dGates "L" none []).1.files = none ∧
    (Handler.packResult env0 dGates "L" none []).1.zip = none :=
  ⟨C10_theorem.1 env0 dGates (by decide),
   C10_theorem.2.1 env0 dGates "L" [] (by decide),
   C10_theorem.2.2.1 env0 dGates "L" none [] (by decide),
   C10_theorem.2.2.2 env0 dGates "L" none [] (by decide)⟩
